import Mathlib

/-!
Verification of `run-safely` (`src/index.ts`): a shallow embedding of the
`runSafe` execution primitive, the `SafeResult` tuple type, the `FetchError`
class hierarchy, and the `fetchTyped` / `safeFetch` pipeline, with theorems
settling the behavioural claims about them.

Modelling conventions:
- A JavaScript promise that has been started is represented by its eventual
  outcome (`WorkResult`): it either fulfills with a value or rejects with a
  thrown value.
- A zero-argument function is represented by its behaviour when called
  (`FnBehavior`): throw synchronously, return a plain value, or return a
  promise.
- The JS value `undefined` is represented, where a claim needs it, by
  instantiating a value type with `Option _` and using `none` for `undefined`.
-/

/-- Outcome of an in-flight JS promise: it either fulfills with a value of `V`
or rejects with a thrown value of `E`. -/
inductive WorkResult (V E : Type) where
  | completes (v : V)
  | raises (e : E)
deriving DecidableEq

/-- Behaviour of a zero-argument function handed to `runSafe` when it is
called: it may throw synchronously, return a plain value, or return a promise
(which is then awaited). -/
inductive FnBehavior (V E : Type) where
  | throwsSync (e : E)
  | returnsValue (v : V)
  | returnsPromise (p : WorkResult V E)
deriving DecidableEq

/-- The input union accepted by `runSafe` (src/index.ts line 18):
`Promise<T> | (() => T) | (() => Promise<T>)`. The `instanceof Promise` test
in the source distinguishes exactly these two top-level shapes. -/
inductive RunSafeInput (V E : Type) where
  | promise (p : WorkResult V E)
  | fn (b : FnBehavior V E)
deriving DecidableEq

/-- `SafeResult<T, E> = [E] | [undefined, T]` (src/index.ts line 9).
`failure e` is the one-element tuple `[e]`; `success v` is the two-element
tuple `[undefined, v]`. -/
inductive SafeResult (E V : Type) where
  | failure (e : E)
  | success (v : V)
deriving DecidableEq

/-- `runSafe` (src/index.ts lines 17-28): await the promise, or call the
function and await whatever it returns; produce `[undefined, value]` on
completion, and catch any raised value into `[raisedValue]`. -/
def runSafe {V E : Type} : RunSafeInput V E → SafeResult E V
  | .promise (.completes v) => .success v
  | .promise (.raises e) => .failure e
  | .fn (.throwsSync e) => .failure e
  | .fn (.returnsValue v) => .success v
  | .fn (.returnsPromise (.completes v)) => .success v
  | .fn (.returnsPromise (.raises e)) => .failure e

/-- Reading index 0 of the JS tuple underlying a `SafeResult`: the stored error
in the failure form, `undefined` (`none`) in the success form. -/
def SafeResult.errSlot {E V : Type} : SafeResult E V → Option E
  | .failure e => some e
  | .success _ => none

/-- Reading index 1 of the JS tuple underlying a `SafeResult`: out of range
(`undefined`, i.e. `none`) in the failure form, the stored value in the
success form. -/
def SafeResult.valSlot {E V : Type} : SafeResult E V → Option V
  | .failure _ => none
  | .success v => some v

/-- Whether JS sees slot 1 as present (`result[0] !== undefined`), for results
whose error values may themselves be the JS value `undefined` (`none`). -/
def SafeResult.slot1Present {ε V : Type} : SafeResult (Option ε) V → Bool
  | .failure (some _) => true
  | .failure none => false
  | .success _ => false

/-- Whether JS sees slot 2 as present (`result[1] !== undefined`), for results
whose success values may themselves be the JS value `undefined` (`none`). -/
def SafeResult.slot2Present {E τ : Type} : SafeResult E (Option τ) → Bool
  | .success (some _) => true
  | .success none => false
  | .failure _ => false

/-- The literal JS array underlying a `SafeResult` whose slots can hold the JS
value `undefined`: the failure form is the one-element array holding the raw
thrown value, the success form is `[undefined, value]`. Entries are `none` for
`undefined`, errors tagged left, values tagged right. -/
def SafeResult.toArray {ε τ : Type} :
    SafeResult (Option ε) (Option τ) → List (Option (ε ⊕ τ))
  | .failure e => [e.map Sum.inl]
  | .success v => [none, v.map Sum.inr]

/-- All values a `runSafe` input can raise are defined, i.e. none of its throw
points throws the JS value `undefined`. -/
def RunSafeInput.raisesDefined {V ε : Type} : RunSafeInput V (Option ε) → Bool
  | .promise (.raises none) => false
  | .fn (.throwsSync none) => false
  | .fn (.returnsPromise (.raises none)) => false
  | _ => true

/-- All values a `runSafe` input can complete with are defined, i.e. none of
its completion points produces the JS value `undefined`. -/
def RunSafeInput.valuesDefined {τ E : Type} : RunSafeInput (Option τ) E → Bool
  | .promise (.completes none) => false
  | .fn (.returnsValue none) => false
  | .fn (.returnsPromise (.completes none)) => false
  | _ => true

/-- A thrown JS `Error` as read by the pipeline: the pipeline only reads its
`message` (fetch and `Response.json()` reject with `Error` objects per the
platform contract). -/
structure JsError where
  message : String
deriving DecidableEq

/-- A `z.ZodError` as stored and read by the pipeline: `ParseFailedError`'s
constructor stores it whole and passes its `message` to `super`. -/
structure ZodError where
  message : String
deriving DecidableEq

/-- The `Response` handle consumed by `fetchTyped`: its `ok` flag, `status`,
`statusText`, and the outcome of invoking `response.json()` (a promise for the
decoded body of type `J`, which may reject). -/
structure Response (J : Type) where
  ok : Bool
  status : Nat
  statusText : String
  jsonPromise : WorkResult J JsError
deriving DecidableEq

/-- The value of `schema.safeParse(json)`:
`{ success: true, data } | { success: false, error }`. -/
inductive SafeParseReturn (T : Type) where
  | success (data : T)
  | failure (error : ZodError)
deriving DecidableEq

/-- A `z.ZodSchema<T>` as used by the pipeline: its `safeParse` method, a pure
function from decoded bodies to a parse result (it never throws). -/
structure Schema (J T : Type) where
  safeParse : J → SafeParseReturn T

/-- The `FetchError` class hierarchy (src/index.ts lines 33-69): the four
concrete subclasses with the payload each constructor stores.
`fetchThrew m` is `new FetchThrewError(m)`; `responseNotOk r` is
`new ResponseNotOkError(r)`; `jsonParse m` is `new JSONParseError(m)`;
`parseFailed z` is `new ParseFailedError(z)`. -/
inductive FetchError (J : Type) where
  | fetchThrew (message : String)
  | responseNotOk (response : Response J)
  | jsonParse (message : String)
  | parseFailed (zodError : ZodError)
deriving DecidableEq

/-- The `Error.message` field of each `FetchError` subclass, as set by its
constructor: `FetchThrewError` and `JSONParseError` receive the underlying
message, `ResponseNotOkError` builds
`Response not ok: ${status} ${statusText}`, `ParseFailedError` forwards the
zod error's message. -/
def FetchError.message {J : Type} : FetchError J → String
  | .fetchThrew m => m
  | .responseNotOk r => "Response not ok: " ++ toString r.status ++ " " ++ r.statusText
  | .jsonParse m => m
  | .parseFailed z => z.message

/-- The environment of one `fetchTyped`/`safeFetch` call: the outcome of the
in-flight promise `fetch(url, options)` and the schema. The url and options
only select this behaviour of the external transport, so they are folded into
it. -/
structure FetchEnv (J T : Type) where
  fetchPromise : WorkResult (Response J) JsError
  schema : Schema J T

/-- `fetchTyped` (src/index.ts lines 83-111), routed through `runSafe` exactly
as the source is: run the fetch promise safely and throw `FetchThrewError` on
a stored error; throw `ResponseNotOkError` if the response is not ok; run
`response.json()` safely and throw `JSONParseError` on a stored error; run
`schema.safeParse` and throw `ParseFailedError` on failure; otherwise return
the parsed `data.data`. `Except.error` models a throw out of the function. -/
def fetchTyped {J T : Type} (env : FetchEnv J T) : Except (FetchError J) T :=
  match runSafe (.promise env.fetchPromise) with
  | .failure fetchError => .error (.fetchThrew fetchError.message)
  | .success response =>
    if !response.ok then
      .error (.responseNotOk response)
    else
      match runSafe (.promise response.jsonPromise) with
      | .failure jsonError => .error (.jsonParse jsonError.message)
      | .success json =>
        match env.schema.safeParse json with
        | .failure zodError => .error (.parseFailed zodError)
        | .success data => .ok data

/-- The four pipeline stages of the spec's state machine. -/
inductive Stage where
  | invokeTransport
  | checkStatus
  | decodeBody
  | validate
deriving DecidableEq

/-- `fetchTyped` instrumented with the list of pipeline stages actually
reached, in order: `decodeBody` is recorded exactly when `response.json()` is
invoked, `validate` exactly when `schema.safeParse` is invoked. -/
def fetchTypedTrace {J T : Type} (env : FetchEnv J T) :
    Except (FetchError J) T × List Stage :=
  match runSafe (.promise env.fetchPromise) with
  | .failure fetchError =>
      (.error (.fetchThrew fetchError.message), [.invokeTransport])
  | .success response =>
    if !response.ok then
      (.error (.responseNotOk response), [.invokeTransport, .checkStatus])
    else
      match runSafe (.promise response.jsonPromise) with
      | .failure jsonError =>
          (.error (.jsonParse jsonError.message),
           [.invokeTransport, .checkStatus, .decodeBody])
      | .success json =>
        match env.schema.safeParse json with
        | .failure zodError =>
            (.error (.parseFailed zodError),
             [.invokeTransport, .checkStatus, .decodeBody, .validate])
        | .success data =>
            (.ok data, [.invokeTransport, .checkStatus, .decodeBody, .validate])

/-- The promise returned by an async function that either returned a value or
threw: `Except.ok` fulfills, `Except.error` rejects. -/
def promiseOf {V E : Type} : Except E V → WorkResult V E
  | .ok v => .completes v
  | .error e => .raises e

/-- `safeFetch` (src/index.ts lines 121-127): `runSafe` over the promise
returned by `fetchTyped(url, schema, options)`. -/
def safeFetch {J T : Type} (env : FetchEnv J T) : SafeResult (FetchError J) T :=
  runSafe (.promise (promiseOf (fetchTyped env)))

/-- A schema that accepts every `Nat` and returns it unchanged. -/
def idSchema : Schema Nat Nat := ⟨fun j => .success j⟩

/-- A transforming schema: accepts every `Nat` body and returns its successor.
Real zod schemas transform in the same sense: coercions, defaults, and
stripping of object keys not named in the schema all make the parsed output
differ from the raw decoded body. -/
def succSchema : Schema Nat Nat := ⟨fun j => .success (j + 1)⟩

/-- An environment whose transport promise rejects with "Network error". -/
def networkRejectEnv : FetchEnv Nat Nat :=
  { fetchPromise := .raises ⟨"Network error"⟩, schema := idSchema }

/-- An environment whose transport resolves ok with decoded body `7`. -/
def okEnv : FetchEnv Nat Nat :=
  { fetchPromise := .completes
      { ok := true, status := 200, statusText := "OK", jsonPromise := .completes 7 }
  , schema := idSchema }

/-- The 404 response handle used by the not-ok environment. -/
def notFoundResponse : Response Nat :=
  { ok := false, status := 404, statusText := "Not Found", jsonPromise := .completes 0 }

/-- An environment whose transport resolves with a non-ok 404 response. -/
def notOkEnv : FetchEnv Nat Nat :=
  { fetchPromise := .completes notFoundResponse, schema := idSchema }

/-- An environment whose transport promise rejects with "Network error", for
the message-preservation claim. -/
def causeMsgEnv : FetchEnv Nat Nat :=
  { fetchPromise := .raises ⟨"Network error"⟩, schema := idSchema }

/-- An ok environment whose decoded body is `0`, validated by the transforming
`succSchema`. -/
def succEnv : FetchEnv Nat Nat :=
  { fetchPromise := .completes
      { ok := true, status := 200, statusText := "OK", jsonPromise := .completes 0 }
  , schema := succSchema }

/-- An ok environment whose decoded body is `5`, validated by the identity
schema. -/
def idEnv : FetchEnv Nat Nat :=
  { fetchPromise := .completes
      { ok := true, status := 200, statusText := "OK", jsonPromise := .completes 5 }
  , schema := idSchema }

/-- An ok environment whose decoded body is `3`, validated by a doubling
schema, so the validator output `6` differs from the raw body. -/
def coerceEnv : FetchEnv Nat Nat :=
  { fetchPromise := .completes
      { ok := true, status := 200, statusText := "OK", jsonPromise := .completes 3 }
  , schema := ⟨fun j => .success (j * 2)⟩ }

/-- The instrumented pipeline computes the same outcome as `fetchTyped`:
the trace component is pure bookkeeping. -/
theorem fetchTypedTrace_fst {J T : Type} (env : FetchEnv J T) :
    (fetchTypedTrace env).1 = fetchTyped env := by
  rcases hf : env.fetchPromise with r | e
  · cases hok : r.ok with
    | false => simp [fetchTypedTrace, fetchTyped, hf, hok, runSafe]
    | true =>
      rcases hj : r.jsonPromise with j | e
      · rcases hp : env.schema.safeParse j with t | z
        · simp [fetchTypedTrace, fetchTyped, hf, hok, hj, hp, runSafe]
        · simp [fetchTypedTrace, fetchTyped, hf, hok, hj, hp, runSafe]
      · simp [fetchTypedTrace, fetchTyped, hf, hok, hj, runSafe]
  · simp [fetchTypedTrace, fetchTyped, hf, runSafe]

/-- Claim C1: for every zero-argument function returning `v` without raising
(directly or via a returned promise), and for every in-flight promise
resolving to `v`, `runSafe` yields the success form `[undefined, v]`: slot 1
absent and exactly `v` in slot 2. -/
theorem runSafe_success_form {V E : Type} (v : V) :
    runSafe (.fn (.returnsValue v) : RunSafeInput V E) = .success v
    ∧ runSafe (.fn (.returnsPromise (.completes v)) : RunSafeInput V E) = .success v
    ∧ runSafe (.promise (.completes v) : RunSafeInput V E) = .success v
    ∧ (SafeResult.success v : SafeResult E V).errSlot = none
    ∧ (SafeResult.success v : SafeResult E V).valSlot = some v :=
  ⟨rfl, rfl, rfl, rfl, rfl⟩

/-- Claim C2: for every zero-argument function (sync or async) raising `e`, and
for every in-flight promise rejecting with `e`, `runSafe` yields the failure
form `[e]`: exactly the same error value `e`, unaltered, in slot 1 and slot 2
absent. -/
theorem runSafe_failure_form {V E : Type} (e : E) :
    runSafe (.fn (.throwsSync e) : RunSafeInput V E) = .failure e
    ∧ runSafe (.fn (.returnsPromise (.raises e)) : RunSafeInput V E) = .failure e
    ∧ runSafe (.promise (.raises e) : RunSafeInput V E) = .failure e
    ∧ (SafeResult.failure e : SafeResult E V).errSlot = some e
    ∧ (SafeResult.failure e : SafeResult E V).valSlot = none :=
  ⟨rfl, rfl, rfl, rfl, rfl⟩

/-- Claim C10: `runSafe` stores the raw thrown value in the failure slot
without wrapping, converting or inspecting it, whatever its type; in
particular a function throwing the JS value `undefined` yields the one-element
tuple whose first (and only) slot is `undefined`. -/
theorem runSafe_raw_thrown_value :
    (∀ (V E : Type) (e : E),
        runSafe (.fn (.throwsSync e) : RunSafeInput V E) = .failure e)
    ∧ (runSafe (.fn (.throwsSync (none : Option Nat))
          : RunSafeInput (Option Nat) (Option Nat))).toArray = [none]
    ∧ ((runSafe (.fn (.throwsSync (none : Option Nat))
          : RunSafeInput (Option Nat) (Option Nat))).toArray).length = 1 :=
  ⟨fun _ _ _ => rfl, rfl, rfl⟩

/-- Claim C3 counterexample: a function that throws the JS value `undefined`
makes `runSafe` return the failure form `[undefined]`: the run failed, yet
slot 1 is absent and slot 2 is absent, so neither slot is populated and
branching on slot 1's presence misclassifies this failure as a success. -/
theorem runSafe_thrown_undefined_breaks_slot_invariant :
    runSafe (.fn (.throwsSync (none : Option Unit))
        : RunSafeInput (Option Unit) (Option Unit)) = .failure none
    ∧ (runSafe (.fn (.throwsSync (none : Option Unit))
        : RunSafeInput (Option Unit) (Option Unit))).slot1Present = false
    ∧ (runSafe (.fn (.throwsSync (none : Option Unit))
        : RunSafeInput (Option Unit) (Option Unit))).slot2Present = false :=
  ⟨rfl, rfl, rfl⟩

/-- Claim C3, amended: for `runSafe` inputs none of whose throw points throws
the JS value `undefined`, slot 1 is present exactly on the failure form, so
branching on slot 1's presence classifies the result correctly; if moreover no
completion point produces `undefined`, exactly one of the two slots is
populated. For `safeFetch`, whose errors are always `FetchError` objects,
slot 1 presence classifies the result unconditionally. -/
theorem safeResult_slot_invariant_for_defined_values {ε τ : Type}
    (input : RunSafeInput (Option τ) (Option ε))
    (h : input.raisesDefined = true) :
    ((runSafe input).slot1Present = true ↔ ∃ e, runSafe input = .failure e)
    ∧ (input.valuesDefined = true →
        ((runSafe input).slot1Present = true ∧ (runSafe input).slot2Present = false)
        ∨ ((runSafe input).slot1Present = false ∧ (runSafe input).slot2Present = true))
    ∧ (∀ (J T : Type) (env : FetchEnv J T),
        ((safeFetch env).errSlot.isSome = true ↔ ∃ e, safeFetch env = .failure e)) := by
  refine ⟨?_, ?_, ?_⟩
  · rcases input with p | b
    · rcases p with v | e
      · simp [runSafe, SafeResult.slot1Present]
      · rcases e with _ | e0
        · simp [RunSafeInput.raisesDefined] at h
        · simp [runSafe, SafeResult.slot1Present]
    · rcases b with e | v | p
      · rcases e with _ | e0
        · simp [RunSafeInput.raisesDefined] at h
        · simp [runSafe, SafeResult.slot1Present]
      · simp [runSafe, SafeResult.slot1Present]
      · rcases p with v | e
        · simp [runSafe, SafeResult.slot1Present]
        · rcases e with _ | e0
          · simp [RunSafeInput.raisesDefined] at h
          · simp [runSafe, SafeResult.slot1Present]
  · intro hv
    rcases input with p | b
    · rcases p with v | e
      · rcases v with _ | v0
        · simp [RunSafeInput.valuesDefined] at hv
        · right
          simp [runSafe, SafeResult.slot1Present, SafeResult.slot2Present]
      · rcases e with _ | e0
        · simp [RunSafeInput.raisesDefined] at h
        · left
          simp [runSafe, SafeResult.slot1Present, SafeResult.slot2Present]
    · rcases b with e | v | p
      · rcases e with _ | e0
        · simp [RunSafeInput.raisesDefined] at h
        · left
          simp [runSafe, SafeResult.slot1Present, SafeResult.slot2Present]
      · rcases v with _ | v0
        · simp [RunSafeInput.valuesDefined] at hv
        · right
          simp [runSafe, SafeResult.slot1Present, SafeResult.slot2Present]
      · rcases p with v | e
        · rcases v with _ | v0
          · simp [RunSafeInput.valuesDefined] at hv
          · right
            simp [runSafe, SafeResult.slot1Present, SafeResult.slot2Present]
        · rcases e with _ | e0
          · simp [RunSafeInput.raisesDefined] at h
          · left
            simp [runSafe, SafeResult.slot1Present, SafeResult.slot2Present]
  · intro J T env
    cases hsf : safeFetch env with
    | failure e => simp [SafeResult.errSlot]
    | success v => simp [SafeResult.errSlot]

/-- Witness for the amended claim C3, at a function throwing the defined error
value `some 4`. -/
theorem safeResult_slot_invariant_witness :
    (RunSafeInput.fn (.throwsSync (some 4))
        : RunSafeInput (Option Nat) (Option Nat)).raisesDefined = true
    ∧ ((runSafe (RunSafeInput.fn (.throwsSync (some 4))
          : RunSafeInput (Option Nat) (Option Nat))).slot1Present = true
        ↔ ∃ e, runSafe (RunSafeInput.fn (.throwsSync (some 4))
          : RunSafeInput (Option Nat) (Option Nat)) = .failure e) :=
  ⟨rfl, (safeResult_slot_invariant_for_defined_values
      (RunSafeInput.fn (.throwsSync (some 4))) rfl).1⟩

/-- Claim C4: `fetchTyped` returns the validated value exactly when all four
stages succeed, and otherwise raises the discriminated error of the first
failing stage: `FetchThrewError` when the transport promise rejects,
`ResponseNotOkError` when the response's ok flag is false, `JSONParseError`
when the body-decode promise rejects, `ParseFailedError` when schema
validation fails. -/
theorem fetchTyped_first_failing_stage {J T : Type} (env : FetchEnv J T) :
    (∀ e, env.fetchPromise = .raises e →
        fetchTyped env = .error (.fetchThrew e.message))
    ∧ (∀ r, env.fetchPromise = .completes r → r.ok = false →
        fetchTyped env = .error (.responseNotOk r))
    ∧ (∀ r e, env.fetchPromise = .completes r → r.ok = true →
        r.jsonPromise = .raises e →
        fetchTyped env = .error (.jsonParse e.message))
    ∧ (∀ r j z, env.fetchPromise = .completes r → r.ok = true →
        r.jsonPromise = .completes j → env.schema.safeParse j = .failure z →
        fetchTyped env = .error (.parseFailed z))
    ∧ (∀ v, fetchTyped env = .ok v ↔
        ∃ r j, env.fetchPromise = .completes r ∧ r.ok = true
          ∧ r.jsonPromise = .completes j ∧ env.schema.safeParse j = .success v) := by
  refine ⟨?_, ?_, ?_, ?_, ?_⟩
  · intro e he
    simp [fetchTyped, he, runSafe]
  · intro r hr hok
    simp [fetchTyped, hr, hok, runSafe]
  · intro r e hr hok hje
    simp [fetchTyped, hr, hok, hje, runSafe]
  · intro r j z hr hok hj hp
    simp [fetchTyped, hr, hok, hj, hp, runSafe]
  · intro v
    rcases hf : env.fetchPromise with r | e
    · cases hok : r.ok with
      | false => simp [fetchTyped, hf, hok, runSafe]
      | true =>
        rcases hj : r.jsonPromise with j | e
        · rcases hp : env.schema.safeParse j with t | z
          · simp [fetchTyped, hf, hok, hj, hp, runSafe]
          · simp [fetchTyped, hf, hok, hj, hp, runSafe]
        · simp [fetchTyped, hf, hok, hj, runSafe]
    · simp [fetchTyped, hf, runSafe]

/-- Witness for claim C4, at an environment whose transport rejects with
"Network error": the pipeline raises exactly `FetchThrewError`. -/
theorem fetchTyped_first_failing_stage_witness :
    fetchTyped networkRejectEnv = .error (.fetchThrew "Network error") :=
  (fetchTyped_first_failing_stage networkRejectEnv).1 ⟨"Network error"⟩ rfl

/-- Claim C5: `safeFetch` is exactly `runSafe` applied to the promise of
`fetchTyped` on the same input: success of `fetchTyped` corresponds to the
success form with the same validated value, a raised error corresponds to the
failure form holding the very same error object (hence same kind, same
payload, same message), and `safeFetch` is a total function into `SafeResult`,
so it never raises. -/
theorem safeFetch_equiv_runSafe_fetchTyped {J T : Type} (env : FetchEnv J T) :
    safeFetch env = runSafe (.promise (promiseOf (fetchTyped env)))
    ∧ (∀ v, fetchTyped env = .ok v ↔ safeFetch env = .success v)
    ∧ (∀ e, fetchTyped env = .error e ↔ safeFetch env = .failure e)
    ∧ (∀ e e', fetchTyped env = .error e → safeFetch env = .failure e' →
        e' = e ∧ FetchError.message e' = FetchError.message e) := by
  refine ⟨rfl, ?_, ?_, ?_⟩
  · intro v
    cases hft : fetchTyped env with
    | ok w => simp [safeFetch, hft, promiseOf, runSafe]
    | error e => simp [safeFetch, hft, promiseOf, runSafe]
  · intro e
    cases hft : fetchTyped env with
    | ok w => simp [safeFetch, hft, promiseOf, runSafe]
    | error e0 => simp [safeFetch, hft, promiseOf, runSafe]
  · intro e e' h1 h2
    simp [safeFetch, h1, promiseOf, runSafe] at h2
    subst h2
    exact ⟨rfl, rfl⟩

/-- Witness for claim C5, at an ok environment with body `7` under the
identity schema: `fetchTyped` returns `7` and `safeFetch` returns the success
form holding `7`. -/
theorem safeFetch_equiv_witness :
    fetchTyped okEnv = .ok 7 ∧ safeFetch okEnv = .success 7 :=
  ⟨rfl, ((safeFetch_equiv_runSafe_fetchTyped okEnv).2.1 7).mp rfl⟩

/-- Claim C6: when the transport resolves with a response whose ok flag is
false, the pipeline terminates at the status check with the
`ResponseNotOkError` outcome (carrying the full response handle), and the
executed stages are exactly transport invocation and status check: the
body-decode routine `response.json()` is never invoked. -/
theorem fetchTyped_not_ok_short_circuit {J T : Type} (env : FetchEnv J T)
    (r : Response J) (hf : env.fetchPromise = .completes r)
    (hok : r.ok = false) :
    fetchTyped env = .error (.responseNotOk r)
    ∧ (fetchTypedTrace env).2 = [.invokeTransport, .checkStatus]
    ∧ Stage.decodeBody ∉ (fetchTypedTrace env).2
    ∧ safeFetch env = .failure (.responseNotOk r) := by
  have h1 : fetchTyped env = .error (.responseNotOk r) := by
    simp [fetchTyped, hf, hok, runSafe]
  have h2 : (fetchTypedTrace env).2 = [.invokeTransport, .checkStatus] := by
    simp [fetchTypedTrace, hf, hok, runSafe]
  refine ⟨h1, h2, ?_, ?_⟩
  · rw [h2]
    simp
  · simp [safeFetch, h1, promiseOf, runSafe]

/-- Witness for claim C6, at an environment resolving with a 404 response:
the outcome is `ResponseNotOkError` and `decodeBody` is not in the stage
trace. -/
theorem fetchTyped_not_ok_short_circuit_witness :
    fetchTyped notOkEnv = .error (.responseNotOk notFoundResponse)
    ∧ Stage.decodeBody ∉ (fetchTypedTrace notOkEnv).2 :=
  ⟨(fetchTyped_not_ok_short_circuit notOkEnv notFoundResponse rfl rfl).1,
   (fetchTyped_not_ok_short_circuit notOkEnv notFoundResponse rfl rfl).2.2.1⟩

/-- Claim C7: the wrapping errors preserve the underlying cause's message
verbatim, in both entry points: a transport rejection whose error has message
`m` produces a `FetchThrewError` whose message is exactly `m`, and a
body-decode rejection whose error has message `m` produces a `JSONParseError`
whose message is exactly `m`. -/
theorem fetch_wrap_preserves_cause_message {J T : Type} (env : FetchEnv J T) :
    (∀ m, env.fetchPromise = .raises ⟨m⟩ →
        fetchTyped env = .error (.fetchThrew m)
        ∧ (FetchError.fetchThrew m : FetchError J).message = m
        ∧ safeFetch env = .failure (.fetchThrew m))
    ∧ (∀ r m, env.fetchPromise = .completes r → r.ok = true →
        r.jsonPromise = .raises ⟨m⟩ →
        fetchTyped env = .error (.jsonParse m)
        ∧ (FetchError.jsonParse m : FetchError J).message = m
        ∧ safeFetch env = .failure (.jsonParse m)) := by
  constructor
  · intro m hm
    have h1 : fetchTyped env = .error (.fetchThrew m) := by
      simp [fetchTyped, hm, runSafe]
    exact ⟨h1, rfl, by simp [safeFetch, h1, promiseOf, runSafe]⟩
  · intro r m hr hok hj
    have h1 : fetchTyped env = .error (.jsonParse m) := by
      simp [fetchTyped, hr, hok, hj, runSafe]
    exact ⟨h1, rfl, by simp [safeFetch, h1, promiseOf, runSafe]⟩

/-- Witness for claim C7, at an environment whose transport rejects with an
error whose message is "Network error". -/
theorem fetch_wrap_preserves_cause_message_witness :
    fetchTyped causeMsgEnv = .error (.fetchThrew "Network error")
    ∧ (FetchError.fetchThrew "Network error" : FetchError Nat).message
        = "Network error" :=
  ⟨((fetch_wrap_preserves_cause_message causeMsgEnv).1 "Network error" rfl).1,
   ((fetch_wrap_preserves_cause_message causeMsgEnv).1 "Network error" rfl).2.1⟩

/-- Claim C8 counterexample: against the transforming `succSchema`, the body
`0` is accepted by the schema, yet both entry points yield the validator's
output `1`, which is not equal to the body `0`: the round trip as stated
fails for schemas whose validator output differs from its input. -/
theorem roundTrip_fails_on_transforming_schema :
    succSchema.safeParse 0 = .success 1
    ∧ fetchTyped succEnv = .ok 1
    ∧ fetchTyped succEnv ≠ .ok 0
    ∧ safeFetch succEnv = .success 1
    ∧ safeFetch succEnv ≠ .success 0 := by
  refine ⟨rfl, rfl, ?_, rfl, ?_⟩
  · have h : fetchTyped succEnv = .ok 1 := rfl
    rw [h]
    simp
  · have h : safeFetch succEnv = .success 1 := rfl
    rw [h]
    simp

/-- Claim C8, amended: the round trip holds for bodies the schema accepts
unchanged: if the schema's validator succeeds on `v` returning `v` itself and
the transport yields an ok response whose decoded body is `v`, then both
entry points yield the success outcome containing exactly `v`. -/
theorem roundTrip_for_identity_accepted_values {J : Type} (env : FetchEnv J J)
    (r : Response J) (v : J) (hf : env.fetchPromise = .completes r)
    (hok : r.ok = true) (hj : r.jsonPromise = .completes v)
    (hp : env.schema.safeParse v = .success v) :
    fetchTyped env = .ok v ∧ safeFetch env = .success v := by
  have h1 : fetchTyped env = .ok v := by
    simp [fetchTyped, hf, hok, hj, hp, runSafe]
  exact ⟨h1, by simp [safeFetch, h1, promiseOf, runSafe]⟩

/-- Witness for the amended claim C8, at an ok environment with body `5` and
the identity schema. -/
theorem roundTrip_witness :
    fetchTyped idEnv = .ok 5 ∧ safeFetch idEnv = .success 5 :=
  roundTrip_for_identity_accepted_values idEnv
    { ok := true, status := 200, statusText := "OK", jsonPromise := .completes 5 }
    5 rfl rfl rfl rfl

/-- Claim C9: on success `fetchTyped` returns the value produced by the schema
validator (the parsed `data.data`), not the raw decoded body: whenever
validation of the decoded body `j` succeeds with output `t`, the pipeline
returns `t`. -/
theorem fetchTyped_returns_validator_output {J T : Type} (env : FetchEnv J T)
    (r : Response J) (j : J) (t : T) (hf : env.fetchPromise = .completes r)
    (hok : r.ok = true) (hj : r.jsonPromise = .completes j)
    (hp : env.schema.safeParse j = .success t) :
    fetchTyped env = .ok t := by
  simp [fetchTyped, hf, hok, hj, hp, runSafe]

/-- Witness for claim C9, at an ok environment whose body is `3` and whose
schema doubles its input: the pipeline returns the validator output `6`,
not the body. -/
theorem fetchTyped_returns_validator_output_witness :
    fetchTyped coerceEnv = .ok 6 :=
  fetchTyped_returns_validator_output coerceEnv
    { ok := true, status := 200, statusText := "OK", jsonPromise := .completes 3 }
    3 6 rfl rfl rfl rfl
